import Mathlib

/-!
Verification development for the wavemeter readout program
(src/wavemeter_readout.py). The Python source is shallowly embedded:
floating-point times and wavelengths are modelled as rationals, the
instrument and the clock as oracle functions supplied to the loop, and
the stop flag (a threading.Event) as a boolean.
-/

namespace WavemeterReadout

/-- A (time, value) pair as produced once per polling tick. -/
structure Sample where
  time : ℚ
  value : ℚ
deriving DecidableEq, Repr

/-! ### PlotWindow (lines 46-90)

State of the Qt plot window: the configured maximum number of points
and the two in-memory buffer lists that `add_data` appends to. -/

structure PlotWindow where
  max_points : ℕ
  wm_time : List ℚ
  wm_wavelength : List ℚ
deriving DecidableEq, Repr

/-- `PlotWindow.__init__` (lines 55-62): the buffers start empty.
The Python default for `max_points` is 500; the argument is explicit here. -/
def PlotWindow.init (max_points : ℕ) : PlotWindow :=
  { max_points := max_points, wm_time := [], wm_wavelength := [] }

/-- `PlotWindow.add_data` (lines 81-84): appends the new point to both
buffer lists, with no trimming. -/
def PlotWindow.add_data (w : PlotWindow) (time_val wavelength_val : ℚ) : PlotWindow :=
  { w with
    wm_time := w.wm_time ++ [time_val]
    wm_wavelength := w.wm_wavelength ++ [wavelength_val] }

/-- The Python slice `xs[-n:]`: the last `n` elements, the whole list when
`n = 0` (since `xs[-0:]` is `xs[0:]`) or when `n` exceeds the length. -/
def pyTailSlice (xs : List ℚ) (n : ℕ) : List ℚ :=
  if n = 0 then xs else xs.drop (xs.length - n)

/-- `PlotWindow.update_plot` (lines 76-79): when the buffer is nonempty,
hand `self.curve.setData` the slices `wm_time[-max_points:]` and
`wm_wavelength[-max_points:]`; otherwise do nothing. The result is the
data handed to the renderer, `none` when no redraw happens. -/
def PlotWindow.update_plot (w : PlotWindow) : Option (List ℚ × List ℚ) :=
  if w.wm_time.length > 0 then
    some (pyTailSlice w.wm_time w.max_points, pyTailSlice w.wm_wavelength w.max_points)
  else none

/-- Feeding a sequence of (time, value) pairs to the window through
`add_data`, in order. -/
def PlotWindow.feedData (w : PlotWindow) (ps : List (ℚ × ℚ)) : PlotWindow :=
  ps.foldl (fun w p => w.add_data p.1 p.2) w

/-! ### Stop signal (threading.Event) and window close (lines 86-90, 186) -/

/-- `threading.Event.set()`: after a set the flag reads true, whatever it
read before. -/
def eventSet (_ : Bool) : Bool := true

/-- Effect of one `PlotWindow.closeEvent` (lines 86-90) on the stop flag:
the window emits `close_signal`, which `main` (line 186) connects to
`stop_event.set`. -/
def closeEventStop (stop : Bool) : Bool := eventSet stop

/-! ### measurement_loop (lines 93-132)

The loop is embedded with its environment made explicit: the monotonic
clock `time.perf_counter` becomes an oracle `clock : ℕ → ℚ` giving the
reading of each successive call (call 0 is `t_start` at line 95, call
`i + 1` is the reading taken by tick `i` at line 108); `random.random`
becomes `rand : ℕ → ℚ` (one draw per tick); and
`float(wm.query(...))` at line 113 becomes `resp : ℕ → Option ℚ`, the
parse of the instrument response for tick `i`, `none` when the response
is not parseable as a number (a ValueError in Python). -/

structure LoopEnv where
  debug_mode : Bool
  clock : ℕ → ℚ
  rand : ℕ → ℚ
  resp : ℕ → Option ℚ

/-- `random.uniform(a, b)` from CPython: `a + (b - a) * random()`. -/
def uniform (a b r : ℚ) : ℚ := a + (b - a) * r

/-- The value obtained by tick `i` (lines 110-113): in debug mode a draw
`random.uniform(500.0, 600.0)`, otherwise the parsed instrument
response; `none` means the `float` conversion raised. -/
def tickValue (env : LoopEnv) (i : ℕ) : Option ℚ :=
  if env.debug_mode then some (uniform 500 600 (env.rand i)) else env.resp i

/-- The while loop of lines 107-126, unrolled for at most `fuel`
iterations starting at tick index `i`. `stopObs j` is the value of
`stop_event.is_set()` observed by the check of iteration `j` (line 107).
Returns the samples written (line 119) in order, paired with `true`
when the loop was terminated by an unparseable response propagating out
(the only exception the `try` of line 106 does not catch). Running out
of fuel truncates the observation with no error. -/
def loopRun (env : LoopEnv) (stopObs : ℕ → Bool) : ℕ → ℕ → List Sample × Bool
  | 0, _ => ([], false)
  | fuel + 1, i =>
    if stopObs i then ([], false)
    else
      match tickValue env i with
      | none => ([], true)
      | some w =>
        let r := loopRun env stopObs fuel (i + 1)
        (⟨env.clock (i + 1) - env.clock 0, w⟩ :: r.1, r.2)

/-- A field of a CSV row as handed to `csv.writer.writerow`: a string
literal or a number. -/
inductive Field where
  | str (s : String)
  | num (q : ℚ)
deriving DecidableEq, Repr

/-- The header row written at line 100: `['Time (s)', 'Wavelength']`. -/
def headerRow : List Field := [Field.str "Time (s)", Field.str "Wavelength"]

/-- The data row written for a sample at line 119:
`[current_time, current_wavelength]`. -/
def sampleRow (s : Sample) : List Field := [Field.num s.time, Field.num s.value]

/-- Outcome of one call of `measurement_loop`. The file is created by
`open(output_file, 'w')` at line 98 and closed by the `with` block on
every exit path, normal or exceptional. -/
structure RunResult where
  rows : List (List Field)
  fileCreated : Bool
  fileClosed : Bool
  errPropagated : Bool
deriving Repr

/-- `measurement_loop` (lines 93-132): open the file, write the header
row, run the while loop, close the file on the way out. -/
def measurement_loop (env : LoopEnv) (stopObs : ℕ → Bool) (fuel : ℕ) : RunResult :=
  let r := loopRun env stopObs fuel 0
  { rows := headerRow :: r.1.map sampleRow
    fileCreated := true
    fileClosed := true
    errPropagated := r.2 }

/-! ### File operations trace, for the flush discipline (lines 98-120) -/

/-- An operation on the open CSV file. -/
inductive FileOp where
  | write (row : List Field)
  | flush
  | close
deriving DecidableEq, Repr

/-- The sequence of operations `measurement_loop` performs on the file:
the header write (line 100, not followed by a flush), then for each tick
a row write (line 119) immediately followed by `csvfile.flush()`
(line 120), and the close performed by the `with` block at exit. -/
def fileOps (env : LoopEnv) (stopObs : ℕ → Bool) (fuel : ℕ) : List FileOp :=
  FileOp.write headerRow ::
    ((loopRun env stopObs fuel 0).1.flatMap
      (fun s => [FileOp.write (sampleRow s), FileOp.flush])) ++ [FileOp.close]

/-- Whether the head operation flushes the file (a flush, or a close,
which flushes) rather than writing again. -/
def flushesNext : List FileOp → Bool
  | [] => false
  | FileOp.write _ :: _ => false
  | FileOp.flush :: _ => true
  | FileOp.close :: _ => true

/-- The file is flushed after every row that is written: each write is
immediately followed by a flush (or by the close, which flushes). -/
def flushedAfterEveryWrite : List FileOp → Bool
  | [] => true
  | FileOp.write _ :: rest => flushesNext rest && flushedAfterEveryWrite rest
  | _ :: rest => flushedAfterEveryWrite rest

/-! ### Stop latency (lines 107-126), for the bounded-shutdown claim

To speak about a stop request arriving at an arbitrary point of the run,
the loop events are laid out on a half-step timeline: the check of
iteration `i` (line 107) happens at position `2 * i` and the body of
tick `i` (lines 108-126) at position `2 * i + 1`. A set at position `s`
is observed by every check at position at least `s`. -/

/-- Indices of the ticks the while loop executes when the stop flag is
set at position `s`, starting from iteration `i`: the check at position
`2 * i` sees the flag iff `s ≤ 2 * i`; otherwise tick `i` runs and the
loop continues. -/
def loopTicksFrom (s i : ℕ) : List ℕ :=
  if s ≤ 2 * i then [] else i :: loopTicksFrom s (i + 1)
termination_by s - 2 * i
decreasing_by omega

/-- The ticks of a whole run with the stop flag set at position `s`. -/
def loopTicks (s : ℕ) : List ℕ := loopTicksFrom s 0

/-! ### main (lines 135-213)

The effects of `main` relevant to startup, shutdown and the exit status.
`connectOk` tells whether `rm.open_resource` plus the identification
query at lines 156-157 succeed (raising `VisaIOError` otherwise), and
`interrupted` whether a KeyboardInterrupt reaches the `try` of
line 192. -/

structure MainArgs where
  graph : Bool
  debug : Bool
deriving DecidableEq, Repr

/-- How the Python process leaves `main`: falling off the function (a
bare `return` or the end of the body), or an explicit `sys.exit(code)`. -/
inductive MainExit where
  | fallThrough
  | sysExit (code : ℕ)
deriving DecidableEq, Repr

/-- The process exit status produced by each way of leaving `main`:
falling off the end of the program exits with status 0, `sys.exit(c)`
with status `c`. -/
def exitStatus : MainExit → ℕ
  | MainExit.fallThrough => 0
  | MainExit.sysExit c => c

structure MainOutcome where
  dirCreated : Bool
  connectionFailed : Bool
  loopStarted : Bool
  logCreated : Bool
  exit : MainExit
deriving DecidableEq, Repr

/-- `main` (lines 135-213). `os.makedirs(readout_dir)` at line 148 runs
before the connection attempt of lines 153-160, so `dirCreated` is true
on every path. On `VisaIOError` the handler (lines 158-160) prints an
error and does a bare `return`, before the log is created or the loop
thread started. Otherwise the measurement thread starts (line 190,
creating the log inside `measurement_loop`) and `main` ends either in
the KeyboardInterrupt handler's `sys.exit(0)` (line 213) or by falling
off the end after the loop thread finishes. -/
def main (args : MainArgs) (connectOk interrupted : Bool) : MainOutcome :=
  if args.debug = false ∧ connectOk = false then
    { dirCreated := true
      connectionFailed := true
      loopStarted := false
      logCreated := false
      exit := MainExit.fallThrough }
  else
    { dirCreated := true
      connectionFailed := false
      loopStarted := true
      logCreated := true
      exit := if interrupted then MainExit.sysExit 0 else MainExit.fallThrough }

/-! ### Concrete instances used by counterexamples and witnesses -/

/-- The window state after feeding three points to a window configured
with a maximum of 2 points. -/
def wC1 : PlotWindow := (PlotWindow.init 2).feedData [(0, 500), (1, 501), (2, 502)]

/-- A debug-mode environment: clock reading `i` at call `i`, every
random draw `1/2`, no instrument attached. -/
def envDbg : LoopEnv :=
  { debug_mode := true, clock := fun i => (i : ℚ), rand := fun _ => 1 / 2
    resp := fun _ => none }

/-- A hardware-mode environment whose instrument responses never parse. -/
def envBad : LoopEnv :=
  { debug_mode := false, clock := fun i => (i : ℚ), rand := fun _ => 0
    resp := fun _ => none }

/-- A stop flag observed set from the check of iteration 1 on: the run
performs exactly one tick. -/
def stopAfterOne (j : ℕ) : Bool := decide (1 ≤ j)

/-! ## Theorems -/

/-- C8: closing the display sink triggers the shutdown path exactly once
even if the close action is invoked multiple times: each close emission
only sets the stop flag, so any positive number of closes has the same
effect on the stop flag as a single close, and setting is idempotent. -/
theorem C8_close_idempotent (s : Bool) (n : ℕ) :
    closeEventStop^[n + 1] s = closeEventStop s ∧
    closeEventStop (closeEventStop s) = closeEventStop s := by
  refine ⟨?_, rfl⟩
  rw [Function.iterate_succ_apply]
  induction n generalizing s with
  | zero => rfl
  | succ n ih => rw [Function.iterate_succ_apply]; exact ih _

/-- C1 counterexample: with the configured maximum set to 2, after three
points are handed to the display sink the buffer retains 3 points, more
than the maximum — `add_data` never trims the buffers. -/
theorem C1_counterexample : ¬ (wC1.wm_time.length ≤ wC1.max_points) := by
  decide

/-- C1 (amended): the buffer retains every point ever handed to the
sink; it is the data handed to the renderer by `update_plot` that never
exceeds the configured maximum (when that maximum is positive): it is
the suffix of the most recent points, the oldest dropped in order. -/
theorem C1_amended_display_bounded (w : PlotWindow) (hm : 0 < w.max_points)
    (t v : List ℚ) (h : w.update_plot = some (t, v)) :
    t.length ≤ w.max_points ∧ v.length ≤ w.max_points ∧
    t = w.wm_time.drop (w.wm_time.length - w.max_points) ∧
    v = w.wm_wavelength.drop (w.wm_wavelength.length - w.max_points) := by
  have hm0 : w.max_points ≠ 0 := Nat.pos_iff_ne_zero.mp hm
  unfold PlotWindow.update_plot pyTailSlice at h
  rw [if_neg hm0, if_neg hm0] at h
  split at h
  · rw [Option.some.injEq, Prod.mk.injEq] at h
    obtain ⟨rfl, rfl⟩ := h
    refine ⟨?_, ?_, rfl, rfl⟩ <;> rw [List.length_drop] <;> omega
  · exact absurd h (by simp)

/-- Witness for C1 (amended) at the concrete window `wC1`. -/
theorem C1_amended_witness :
    [(1 : ℚ), 2].length ≤ wC1.max_points ∧
    [(501 : ℚ), 502].length ≤ wC1.max_points ∧
    [(1 : ℚ), 2] = wC1.wm_time.drop (wC1.wm_time.length - wC1.max_points) ∧
    [(501 : ℚ), 502] = wC1.wm_wavelength.drop (wC1.wm_wavelength.length - wC1.max_points) :=
  C1_amended_display_bounded wC1 (by decide) _ _ (by decide)

/-- C2 counterexample: run without debug mode and with the connection
attempt failing: `main` takes the `VisaIOError` handler's bare `return`,
and the process exit status is 0, not non-zero as the claim requires for
a failed connection. -/
theorem C2_counterexample :
    ¬ ((main ⟨false, false⟩ false false).connectionFailed = true →
        exitStatus (main ⟨false, false⟩ false false).exit ≠ 0) := by
  decide

/-- C2 (amended): the process exits with status 0 on every path: normal
completion, interrupted-but-clean shutdown, and also when the instrument
connection cannot be established (that handler prints an error and
returns, which still exits with status 0); no path exits non-zero. -/
theorem C2_amended_exit_always_zero (args : MainArgs) (c i : Bool) :
    exitStatus (main args c i).exit = 0 := by
  obtain ⟨g, d⟩ := args
  cases d <;> cases c <;> cases i <;> rfl

/-- C10: the timestamped output directory is created before the
instrument connection is attempted, so a non-debug run whose connection
attempt fails still leaves the directory in place, with no log file
created in it and the loop never started. -/
theorem C10_dir_created_before_connect (args : MainArgs) (i : Bool)
    (hdbg : args.debug = false) :
    (main args false i).dirCreated = true ∧
    (main args false i).connectionFailed = true ∧
    (main args false i).loopStarted = false ∧
    (main args false i).logCreated = false := by
  unfold main
  rw [if_pos ⟨hdbg, rfl⟩]
  exact ⟨rfl, rfl, rfl, rfl⟩

/-- Witness for C10 at a concrete failing non-debug run. -/
theorem C10_witness :
    (main ⟨false, false⟩ false false).dirCreated = true ∧
    (main ⟨false, false⟩ false false).connectionFailed = true ∧
    (main ⟨false, false⟩ false false).loopStarted = false ∧
    (main ⟨false, false⟩ false false).logCreated = false :=
  C10_dir_created_before_connect ⟨false, false⟩ false rfl

/-! ### Lemmas about the loop -/

/-- Every sample produced from tick index `i` on carries the time
reading of some later clock call, so with a monotone clock its time is
at least `clock (i + 1) - clock 0`. -/
theorem loopRun_time_lb (env : LoopEnv) (stopObs : ℕ → Bool)
    (hmono : Monotone env.clock) :
    ∀ fuel i, ∀ s ∈ (loopRun env stopObs fuel i).1,
      env.clock (i + 1) - env.clock 0 ≤ s.time := by
  intro fuel
  induction fuel with
  | zero => intro i s hs; simp [loopRun] at hs
  | succ n ih =>
    intro i s hs
    rw [loopRun] at hs
    split at hs
    · simp at hs
    · rcases hv : tickValue env i with _ | w <;> rw [hv] at hs
      · simp at hs
      · dsimp at hs
        rcases List.mem_cons.mp hs with rfl | hs
        · exact le_rfl
        · exact le_trans (sub_le_sub_right (hmono (by omega)) _) (ih (i + 1) s hs)

/-- Consecutive samples carry clock readings of consecutive ticks, so
with a monotone clock their times are pairwise nondecreasing. -/
theorem loopRun_chain (env : LoopEnv) (stopObs : ℕ → Bool)
    (hmono : Monotone env.clock) :
    ∀ fuel i, List.Chain' (fun a b : Sample => a.time ≤ b.time)
      (loopRun env stopObs fuel i).1 := by
  intro fuel
  induction fuel with
  | zero => intro i; simp [loopRun]
  | succ n ih =>
    intro i
    rw [loopRun]
    split
    · simp
    · rcases hv : tickValue env i with _ | w
      · simp
      · dsimp
        rw [List.chain'_cons']
        refine ⟨?_, ih (i + 1)⟩
        intro b hb
        exact le_trans (sub_le_sub_right (hmono (by omega)) _)
          (loopRun_time_lb env stopObs hmono n (i + 1) b (List.mem_of_mem_head? hb))

/-- If the first `k` ticks see the loop running with parseable
responses and tick `k` sees a response that does not parse, the
`ValueError` from `float` propagates: the loop result reports the
error. -/
theorem loopRun_err (env : LoopEnv) (stopObs : ℕ → Bool)
    (hdbg : env.debug_mode = false) :
    ∀ k fuel i,
      (∀ j, j < k → stopObs (i + j) = false ∧ (env.resp (i + j)).isSome) →
      stopObs (i + k) = false → env.resp (i + k) = none → k < fuel →
      (loopRun env stopObs fuel i).2 = true := by
  intro k
  induction k with
  | zero =>
    intro fuel i hok hstop hbad hfuel
    match fuel, hfuel with
    | fuel + 1, _ =>
      rw [loopRun, if_neg (by simpa using hstop)]
      rw [tickValue, if_neg (by simp [hdbg])]
      rw [show env.resp i = none from by simpa using hbad]
  | succ k ih =>
    intro fuel i hok hstop hbad hfuel
    match fuel, hfuel with
    | fuel + 1, hfuel =>
      obtain ⟨hs0, hr0⟩ := hok 0 (Nat.succ_pos k)
      obtain ⟨w, hw⟩ := Option.isSome_iff_exists.mp hr0
      rw [loopRun, if_neg (by simpa using hs0)]
      rw [tickValue, if_neg (by simp [hdbg])]
      rw [show env.resp i = some w from by simpa using hw]
      dsimp
      refine ih fuel (i + 1) ?_ ?_ ?_ (by omega)
      · intro j hj
        have h1 : i + 1 + j = i + (j + 1) := by omega
        rw [h1]
        exact hok (j + 1) (by omega)
      · have h1 : i + 1 + k = i + (k + 1) := by omega
        rw [h1]; exact hstop
      · have h1 : i + 1 + k = i + (k + 1) := by omega
        rw [h1]; exact hbad

/-- Every tick the loop executes passed its check: its index `j`
satisfies `2 * j < s` when the stop flag was set at position `s`. -/
theorem loopTicksFrom_filter_le (n : ℕ) : ∀ s i, s - 2 * i ≤ n →
    ((loopTicksFrom s i).filter (fun j => decide (s ≤ 2 * j + 1))).length ≤ 1 := by
  induction n with
  | zero =>
    intro s i h
    rw [loopTicksFrom, if_pos (by omega)]
    simp
  | succ n ih =>
    intro s i h
    rw [loopTicksFrom]
    split
    · simp
    · rename_i hlt
      by_cases hp : s ≤ 2 * i + 1
      · have hrest : loopTicksFrom s (i + 1) = [] := by
          rw [loopTicksFrom, if_pos (by omega)]
        rw [hrest]
        simp [hp]
      · rw [List.filter_cons_of_neg (by simpa using hp)]
        exact ih s (i + 1) (by omega)

/-- The sequence of data-row writes each immediately followed by a
flush, capped by the close, satisfies the flush discipline. -/
theorem flushedAfterEveryWrite_data (samples : List Sample) :
    flushedAfterEveryWrite
      ((samples.flatMap (fun s => [FileOp.write (sampleRow s), FileOp.flush])) ++
        [FileOp.close]) = true := by
  induction samples with
  | nil => rfl
  | cons s rest ih => simpa [flushedAfterEveryWrite, flushesNext] using ih

/-! ### Claims about the loop -/

/-- C4: whenever the stop flag is set (at an arbitrary half-step
position `s` of the run's timeline), at most one of the ticks the loop
executes lies at or after that position: the loop performs at most one
more tick before exiting. -/
theorem C4_at_most_one_tick_after_stop (s : ℕ) :
    ((loopTicks s).filter (fun j => decide (s ≤ 2 * j + 1))).length ≤ 1 :=
  loopTicksFrom_filter_le s s 0 (by omega)

/-- C9: when the stop flag is already set at the first check, the loop
exits after zero ticks, yet the log file was already created and the
header row written: the run leaves a file holding exactly the header
row. -/
theorem C9_stop_before_start (env : LoopEnv) (stopObs : ℕ → Bool) (fuel : ℕ)
    (h : stopObs 0 = true) :
    (measurement_loop env stopObs fuel).rows = [headerRow] ∧
    (measurement_loop env stopObs fuel).fileCreated = true := by
  have hnil : (loopRun env stopObs fuel 0).1 = [] := by
    cases fuel with
    | zero => rfl
    | succ n => rw [loopRun, if_pos h]
  exact ⟨by simp [measurement_loop, hnil], rfl⟩

/-- Witness for C9: a concrete run whose stop flag is set from the
start. -/
theorem C9_witness :
    (measurement_loop envDbg (fun _ => true) 5).rows = [headerRow] ∧
    (measurement_loop envDbg (fun _ => true) 5).fileCreated = true :=
  C9_stop_before_start envDbg (fun _ => true) 5 rfl

/-- C5: in debug mode every produced value is `uniform 500 600` of a
draw of `random.random()`, so (modelling the floating-point arithmetic
of CPython's `random.uniform` exactly, over the rationals) it lies in
the half-open range: at least 500 and strictly below 600. -/
theorem C5_debug_value_range (env : LoopEnv) (stopObs : ℕ → Bool) (fuel i : ℕ)
    (hdbg : env.debug_mode = true)
    (hr : ∀ j, 0 ≤ env.rand j ∧ env.rand j < 1)
    (s : Sample) (hs : s ∈ (loopRun env stopObs fuel i).1) :
    500 ≤ s.value ∧ s.value < 600 := by
  induction fuel generalizing i with
  | zero => simp [loopRun] at hs
  | succ n ih =>
    rw [loopRun] at hs
    split at hs
    · simp at hs
    · rw [tickValue, if_pos hdbg] at hs
      dsimp at hs
      rcases List.mem_cons.mp hs with rfl | hs
      · dsimp
        unfold uniform
        obtain ⟨h0, h1⟩ := hr i
        constructor <;> nlinarith
      · exact ih (i + 1) hs

/-- Witness for C5: out of a concrete one-tick debug run, the produced
sample has value 550, inside the range. -/
theorem C5_witness : 500 ≤ (Sample.mk 1 550).value ∧ (Sample.mk 1 550).value < 600 :=
  C5_debug_value_range envDbg stopAfterOne 3 0 rfl
    (fun _ => by constructor <;> norm_num [envDbg]) _
    (by norm_num [loopRun, envDbg, stopAfterOne, tickValue, uniform])

/-- C7: with the monotonic clock, every sample's elapsed time is
nonnegative and elapsed times never decrease across consecutive
samples. -/
theorem C7_time_nonneg_monotone (env : LoopEnv) (stopObs : ℕ → Bool) (fuel : ℕ)
    (hmono : Monotone env.clock) :
    (∀ s ∈ (loopRun env stopObs fuel 0).1, 0 ≤ s.time) ∧
    List.Chain' (fun a b : Sample => a.time ≤ b.time)
      (loopRun env stopObs fuel 0).1 := by
  refine ⟨?_, loopRun_chain env stopObs hmono fuel 0⟩
  intro s hs
  have h1 := loopRun_time_lb env stopObs hmono fuel 0 s hs
  have h2 : env.clock 0 ≤ env.clock 1 := hmono (by omega)
  linarith

/-- Witness for C7 at a concrete two-tick debug run. -/
theorem C7_witness :
    (∀ s ∈ (loopRun envDbg (fun j => decide (2 ≤ j)) 5 0).1, 0 ≤ s.time) ∧
    List.Chain' (fun a b : Sample => a.time ≤ b.time)
      (loopRun envDbg (fun j => decide (2 ≤ j)) 5 0).1 :=
  C7_time_nonneg_monotone envDbg (fun j => decide (2 ≤ j)) 5
    (fun a b h => by exact_mod_cast Nat.cast_le.mpr h)

/-- C6: a response that does not parse as a number is not caught by the
loop (its `try` only catches KeyboardInterrupt): the error propagates
out, ending the run, and the `with` block still closes the log file on
the way out. -/
theorem C6_unparseable_propagates (env : LoopEnv) (stopObs : ℕ → Bool)
    (fuel k : ℕ) (hdbg : env.debug_mode = false)
    (hok : ∀ j, j < k → stopObs j = false ∧ (env.resp j).isSome)
    (hstop : stopObs k = false) (hbad : env.resp k = none) (hfuel : k < fuel) :
    (measurement_loop env stopObs fuel).errPropagated = true ∧
    (measurement_loop env stopObs fuel).fileClosed = true := by
  refine ⟨?_, rfl⟩
  show (loopRun env stopObs fuel 0).2 = true
  exact loopRun_err env stopObs hdbg k fuel 0 (by simpa using hok)
    (by simpa using hstop) (by simpa using hbad) hfuel

/-- Witness for C6: a concrete hardware-mode run whose first response
fails to parse. -/
theorem C6_witness :
    (measurement_loop envBad (fun _ => false) 1).errPropagated = true ∧
    (measurement_loop envBad (fun _ => false) 1).fileClosed = true :=
  C6_unparseable_propagates envBad (fun _ => false) 1 0 rfl
    (fun j hj => absurd hj (by omega)) rfl rfl (by omega)

/-- C3 counterexample: in a concrete one-tick run the operation trace on
the file is header write, data write, flush, close: the header row is
written but not followed by a flush before the next write, so the file
is not flushed after every row as the claim states. -/
theorem C3_counterexample :
    ¬ ((measurement_loop envDbg stopAfterOne 3).rows.head? = some headerRow ∧
       (∀ r ∈ (measurement_loop envDbg stopAfterOne 3).rows.tail,
         ∃ t v, r = [Field.num t, Field.num v] ∧ 0 ≤ t) ∧
       flushedAfterEveryWrite (fileOps envDbg stopAfterOne 3) = true) := by
  intro h
  exact absurd h.2.2 (by decide)

/-- C3 (amended): the log's first row is exactly the header pair, every
later row is two fields, a nonnegative time and a value, and the file
is flushed after every data row (the header row itself is not followed
by its own flush; it reaches the file with the first data row's flush
or at close). -/
theorem C3_amended_rows_and_flush (env : LoopEnv) (stopObs : ℕ → Bool)
    (fuel : ℕ) (hmono : Monotone env.clock) :
    (measurement_loop env stopObs fuel).rows.head? = some headerRow ∧
    (∀ r ∈ (measurement_loop env stopObs fuel).rows.tail,
      ∃ t v, r = [Field.num t, Field.num v] ∧ 0 ≤ t) ∧
    flushedAfterEveryWrite ((fileOps env stopObs fuel).tail) = true := by
  refine ⟨rfl, ?_, ?_⟩
  · intro r hr
    simp only [measurement_loop, List.tail_cons, List.mem_map] at hr
    obtain ⟨s, hs, rfl⟩ := hr
    refine ⟨s.time, s.value, rfl, ?_⟩
    have h1 := loopRun_time_lb env stopObs hmono fuel 0 s hs
    have h2 : env.clock 0 ≤ env.clock 1 := hmono (by omega)
    linarith
  · show flushedAfterEveryWrite
      (((loopRun env stopObs fuel 0).1.flatMap
        (fun s => [FileOp.write (sampleRow s), FileOp.flush])) ++ [FileOp.close]) = true
    exact flushedAfterEveryWrite_data _

/-- Witness for C3 (amended) at a concrete one-tick debug run. -/
theorem C3_amended_witness :
    (measurement_loop envDbg stopAfterOne 3).rows.head? = some headerRow ∧
    (∀ r ∈ (measurement_loop envDbg stopAfterOne 3).rows.tail,
      ∃ t v, r = [Field.num t, Field.num v] ∧ 0 ≤ t) ∧
    flushedAfterEveryWrite ((fileOps envDbg stopAfterOne 3).tail) = true :=
  C3_amended_rows_and_flush envDbg stopAfterOne 3
    (fun a b h => by exact_mod_cast Nat.cast_le.mpr h)

end WavemeterReadout
